import Mathlib

/-!
Verification development for the elkmon repository: a client-side codec and
request/response correlation layer for the Elk M1 ASCII control protocol.

The embedding models protocol text as lists of characters (`Str`).  JavaScript
string and number primitives used by the source (`String.prototype.substring`,
`parseInt`, unary `+`/`Number`, `trim`, `split`, one-shot `replace`) are given
total Lean counterparts; `NaN`/`undefined` numeric results are modelled as
`Option.none`.  Machine-level quirks that the source relies on are reproduced
faithfully: `substring` clamps and swaps its indices, bitwise operators treat
`NaN` as `0`, and a rejected promise ignores later settlement attempts.
-/

namespace Elkmon

/-- Protocol text is modelled as a list of characters. -/
abbrev Str := List Char

/-- Conversion from a Lean string literal to the character-list model. -/
def str (s : String) : Str := s.data

/-- JavaScript `String.prototype.substring(a, b)`: both indices are clamped to
`[0, length]` and swapped when `a > b`. -/
def jsSubstring (s : Str) (a b : Int) : Str :=
  let n : Int := (s.length : Int)
  let a' := min (max a 0) n
  let b' := min (max b 0) n
  (s.take (max a' b').toNat).drop (min a' b').toNat

/-- JavaScript whitespace test for the characters `trim` strips (the subset
relevant to this protocol: space, tab, carriage return, newline). -/
def jsIsSpace (c : Char) : Bool :=
  c = ' ' || c = '\t' || c = '\r' || c = '\n'

/-- JavaScript `String.prototype.trim()`. -/
def jsTrim (s : Str) : Str :=
  ((s.dropWhile jsIsSpace).reverse.dropWhile jsIsSpace).reverse

/-- JavaScript `String.prototype.split(sep)` for a single-character separator. -/
def jsSplit (sep : Char) (s : Str) : List Str :=
  s.splitOn sep

/-- JavaScript `String.prototype.replace(c, "")` with a plain pattern: removes
only the first occurrence. -/
def removeFirst (c : Char) : Str → Str
  | [] => []
  | x :: xs => if x = c then xs else x :: removeFirst c xs

/-- Decimal digit test. -/
def isDigitChar (c : Char) : Bool := '0' ≤ c && c ≤ '9'

/-- Hexadecimal digit test (both cases). -/
def isHexDigitChar (c : Char) : Bool :=
  ('0' ≤ c && c ≤ '9') || ('A' ≤ c && c ≤ 'F') || ('a' ≤ c && c ≤ 'f')

/-- Numeric value of one hexadecimal digit character (0 for non-digits). -/
def hexCharVal (c : Char) : Nat :=
  if '0' ≤ c ∧ c ≤ '9' then c.toNat - 48
  else if 'A' ≤ c ∧ c ≤ 'F' then c.toNat - 55
  else if 'a' ≤ c ∧ c ≤ 'f' then c.toNat - 87
  else 0

/-- Uppercase digit character for a value below the base (`0-9`, `A-F`).
The source produces lowercase hex via `toString(16)` and immediately
uppercases it, so the composition is modelled directly. -/
def digitCharU (n : Nat) : Char :=
  if n < 10 then Char.ofNat (48 + n) else Char.ofNat (55 + n)

/-- Fuel-driven base conversion: digits of `n` in base `b`, most significant
first, prepended to `acc`.  `fuel` bounds the recursion and any `fuel ≥ 1`
large enough for the magnitude of `n` gives the exact digit string. -/
def natDigits (b : Nat) : Nat → Nat → Str → Str
  | 0, _, acc => acc
  | fuel + 1, n, acc =>
      if n < b then digitCharU n :: acc
      else natDigits b fuel (n / b) (digitCharU (n % b) :: acc)

/-- JavaScript `n.toString(16).toUpperCase()` for a non-negative integer. -/
def natToHexUpper (n : Nat) : Str := natDigits 16 (n + 1) n []

/-- JavaScript `n.toString()` for a non-negative integer. -/
def natToDec (n : Nat) : Str := natDigits 10 (n + 1) n []

/-- JavaScript `v.toString()` for an integer. -/
def intToDec (v : Int) : Str :=
  if v < 0 then '-' :: natToDec (-v).toNat else natToDec v.toNat

/-- JavaScript rendering of an `Option Int` number: `none` is `NaN`. -/
def numToDec : Option Int → Str
  | none => str "NaN"
  | some v => intToDec v

/-- Sum of the character code points of a string.  This equals the byte sum of
the `Buffer` built by the source for ASCII text (the protocol alphabet). -/
def sumBytes (s : Str) : Nat := s.foldl (fun a c => a + c.toNat) 0

/-- JavaScript `parseInt(s, 10)` restricted to the unsigned digit fields this
protocol carries: parses the longest digit prefix, `NaN` (`none`) when the
string does not start with a digit. -/
def jsParseInt10 (s : Str) : Option Int :=
  let ds := s.takeWhile isDigitChar
  if ds = [] then none
  else some ((ds.foldl (fun a c => a * 10 + (c.toNat - 48)) 0 : Nat) : Int)

/-- JavaScript `parseInt(s, 16)` restricted to unsigned input: longest hex
digit prefix, `NaN` (`none`) when there is none. -/
def jsParseHex (s : Str) : Option Nat :=
  let ds := s.takeWhile isHexDigitChar
  if ds = [] then none
  else some (ds.foldl (fun a c => a * 16 + hexCharVal c) 0)

/-- JavaScript unary `+` / `Number()` restricted to the integer fields this
protocol carries: the empty string converts to `0`, a pure digit string to its
value, anything else to `NaN` (`none`). -/
def jsToNumber (s : Str) : Option Int :=
  if s = [] then some 0
  else if s.all isDigitChar then
    some ((s.foldl (fun a c => a * 10 + (c.toNat - 48)) 0 : Nat) : Int)
  else none

/-- JavaScript `parseFloat` as used on the two-digit integer set-point fields:
same digit-prefix behaviour as `parseInt` for the inputs that occur here. -/
def jsParseFloatInt (s : Str) : Option Int := jsParseInt10 s

/-- JavaScript `ToInt32` as applied by bitwise operators to a possibly-`NaN`
number: `NaN` becomes `0`. -/
def toInt32 (o : Option Nat) : Nat := o.getD 0

/-- JavaScript `>` comparison against `0` where the left side may be
`undefined` or `NaN` (both compare false). -/
def optGtZero : Option Int → Bool
  | none => false
  | some v => 0 < v

/-! ## Frame codec (src/lib/messages.ts, ElkMessage) -/

/-- Convert to a 2 byte hex value: `hex2` from src/lib/messages.ts, lines
100-107.  `toString(16).toUpperCase()`, left-padded with one `0` when the
result has a single digit. -/
def hex2 (i : Nat) : Str :=
  let hex := natToHexUpper i
  if hex.length = 1 then '0' :: hex else hex

/-- Checksum from src/lib/messages.ts, lines 80-91, applied to the text
`hexLength + type + body`: sum the byte values, mask to 8 bits, XOR with
`0xff`, add `1`, mask to 8 bits, render as two uppercase hex digits. -/
def calcChecksum (s : Str) : Str :=
  hex2 ((((sumBytes s &&& 0xff) ^^^ 0xff) + 1) &&& 0xff)

/-- Checksum algorithm written from the words of the specification, for
comparison with the code-derived `calcChecksum`: sum the numeric byte value of
every character, take `sum AND 0xFF`, XOR with `0xFF`, add `1`, mask with
`0xFF`, format as 2-digit uppercase hex. -/
def specChecksum (s : Str) : Str :=
  let sum := sumBytes s
  let masked := sum &&& 0xff
  let xored := masked ^^^ 0xff
  let plus1 := xored + 1
  hex2 (plus1 &&& 0xff)

/-- Message Registry: the `responseTypes` map of types.ts (the file itself is
not under src/; the set of registered 2-character type codes and their decoder
class names is modelled from the decoder table in the specification, section
4.2, and from the decoder classes that exist in src/lib/messages.ts). -/
def responseTypesList : List (String × String) :=
  [("AS", "ArmingStatusReport"),
   ("EE", "EntryExitTime"),
   ("KA", "KeypadAreasReport"),
   ("KC", "KeypadKeyChangeUpdate"),
   ("LD", "LogDataUpdate"),
   ("CC", "OutputChangeUpdate"),
   ("CS", "OutputStatusReport"),
   ("LW", "TemperatureReply"),
   ("TR", "ThermostatReply"),
   ("SD", "TextStringDescriptionReport"),
   ("TC", "TaskChangeUpdate"),
   ("ZB", "ZoneBypass"),
   ("ZD", "ZoneDefinitionReport"),
   ("ZV", "ZoneVoltageReport"),
   ("ZC", "ZoneChangeUpdate"),
   ("ZS", "ZoneStatusReport"),
   ("ZP", "ZonePartitionReport")]

/-- `responseTypes.get(type)`: look a 2-character type code up in the
registry. -/
def responseTypes (t : Str) : Option String :=
  (responseTypesList.find? (fun p => str p.1 == t)).map (·.2)

/-- Field state of the base `ElkMessage` class: the full frame text plus the
four positional slices. -/
structure ElkFrame where
  message : Str
  body : Str
  type : Str
  hexLength : Str
  checkSum : Str
deriving DecidableEq, Repr

/-- `validChecksum` from src/lib/messages.ts, lines 76-78: the stored checksum
equals the checksum recomputed over `hexLength + type + body`. -/
def validChecksum (f : ElkFrame) : Bool :=
  f.checkSum == calcChecksum (f.hexLength ++ f.type ++ f.body)

/-- Error raised by decoding (the `TypeError` thrown at src/lib/messages.ts,
line 70, when the calculated checksum does not match the received one). -/
inductive DecodeError where
  | checksumMismatch (message : Str)
deriving DecidableEq, Repr

/-- Command branch of the `ElkMessage` constructor (src/lib/messages.ts, lines
45-56): append the fixed `"00"` future-use suffix to the command text after
the 2-character type code, compute the length field as
`(type + body).length + 2` in 2-digit uppercase hex, then the checksum. -/
def elkFromCommand (command : Str) : ElkFrame :=
  let futureUse := str "00"
  let body := jsSubstring command 2 command.length ++ futureUse
  let type := jsSubstring command 0 2
  let hexLength := hex2 ((type ++ body).length + 2)
  let checkSum := calcChecksum (hexLength ++ type ++ body)
  { message := hexLength ++ type ++ body ++ checkSum
    body := body
    type := type
    hexLength := hexLength
    checkSum := checkSum }

/-- Positional slicing of a received frame (src/lib/messages.ts, lines 59-65):
`body = raw[4 : len-2]`, `type = raw[2 : 4]`, `hexLength = raw[0 : 2]`,
`checkSum = raw[len-2 : len]`. -/
def parseFrame (response : Str) : ElkFrame :=
  let length : Int := response.length
  { message := response
    body := jsSubstring response 4 (length - 2)
    type := jsSubstring response 2 4
    hexLength := jsSubstring response 0 2
    checkSum := jsSubstring response (length - 2) length }

/-- Response branch of the `ElkMessage` constructor (src/lib/messages.ts,
lines 57-73): slice the frame and validate the checksum only when the type
code is not present in the registry. -/
def elkFromResponse (response : Str) : Except DecodeError ElkFrame :=
  let f := parseFrame response
  if (responseTypes f.type).isNone then
    if validChecksum f then Except.ok f
    else Except.error (DecodeError.checksumMismatch f.message)
  else Except.ok f

/-- Hex value of an uppercase hex string, used to state what the length field
encodes. -/
def hexToNat (s : Str) : Nat := s.foldl (fun a c => a * 16 + hexCharVal c) 0

/-! ## Lookup tables

Modelled from the spec: the static lookup tables live in types.ts and
enums.ts, which are not under src/.  The specification describes them only as
read-only mappings from protocol codes to human-readable labels, so the
tables below carry the entries witnessed by the unit tests and README of the
repository; unlisted codes map to `none`.  No claim theorem depends on the
label text. -/

/-- Generic string-keyed lookup table. -/
def mkTable (tbl : List (String × String)) (s : Str) : Option Str :=
  (tbl.find? (fun p => str p.1 == s)).map (fun p => str p.2)

/-- Modelled from the spec: arm status lookup table (types.ts). -/
def armStatus : Str → Option Str :=
  mkTable [("0", "Disarmed"), ("1", "Armed Away"), ("2", "Armed Stay"),
           ("3", "Armed Stay Instant"), ("4", "Armed Night"),
           ("5", "Armed Night Instant"), ("6", "Armed Vacation")]

/-- Modelled from the spec: arm-up state lookup table (types.ts). -/
def armUpState : Str → Option Str :=
  mkTable [("0", "Not Ready To Arm"), ("1", "Ready To Arm"),
           ("2", "Ready To Arm if forced"), ("3", "Armed with Exit Timer"),
           ("4", "Armed Fully"), ("5", "Force Armed"),
           ("6", "Armed with a Bypass")]

/-- Modelled from the spec: alarm state lookup table (types.ts). -/
def alarmState : Str → Option Str :=
  mkTable [("0", "No Alarm Active"), ("1", "Entrance Delay is Active"),
           ("2", "Alarm Abort Delay Active"), ("3", "Fire")]

/-- Modelled from the spec: zone definition lookup table (types.ts); the `1`
and `6` entries are fixed by the unit-test fixtures. -/
def zoneDefinition : Str → Option Str :=
  mkTable [("0", "Disabled"), ("1", "Burglar Entry/Exit 1"),
           ("2", "Burglar Entry/Exit 2"), ("6", "Burglar Interior Night")]

/-- Modelled from the spec: static event-description table (types.ts); the
`1193` entry is fixed by the unit-test fixture. -/
def eventTypeTable : Str → Option Str :=
  mkTable [("1173", "AREA 1 IS ARMED STAY"), ("1193", "AREA 3 IS ARMED STAY")]

/-- Modelled from the spec: `TimerType` enum (enums.ts), keyed by the raw
character of the timer-type field. -/
def timerTypeTable : Str → Option Str :=
  mkTable [("0", "Exit"), ("1", "Entry 1"), ("2", "Entry 2")]

/-- Modelled from the spec: `Key` enum reverse mapping (enums.ts); the `11`
entry is fixed by the unit-test fixture. -/
def keyTable : Str → Option Str :=
  mkTable [("11", "Asterisk"), ("12", "Pound"), ("00", "No Key")]

/-- Modelled from the spec: `IlluminationStatus` enum reverse mapping
(enums.ts); entries fixed by the unit-test fixture. -/
def illuminationTable : Str → Option Str :=
  mkTable [("0", "Off"), ("1", "On"), ("2", "Blinking")]

/-- Modelled from the spec: `Month` enum reverse mapping (enums.ts); the `6`
entry is fixed by the unit-test fixture. -/
def monthTable : Option Int → Option Str
  | some 1 => some (str "January")
  | some 2 => some (str "February")
  | some 3 => some (str "March")
  | some 4 => some (str "April")
  | some 5 => some (str "May")
  | some 6 => some (str "June")
  | some 7 => some (str "July")
  | some 8 => some (str "August")
  | some 9 => some (str "September")
  | some 10 => some (str "October")
  | some 11 => some (str "November")
  | some 12 => some (str "December")
  | _ => none

/-- Modelled from the spec: `WeekDay` enum reverse mapping (enums.ts); the `5`
entry is fixed by the unit-test fixture. -/
def weekDayTable : Option Int → Option Str
  | some 1 => some (str "Sunday")
  | some 2 => some (str "Monday")
  | some 3 => some (str "Tuesday")
  | some 4 => some (str "Wednesday")
  | some 5 => some (str "Thursday")
  | some 6 => some (str "Friday")
  | some 7 => some (str "Saturday")
  | _ => none

/-- Modelled from the spec: `PhysicalStatus` enum reverse mapping (enums.ts);
indices 2 and 3 are fixed by the unit-test fixture and the README sample. -/
def physicalStatusTable : Nat → Option Str
  | 0 => some (str "Unconfigured")
  | 1 => some (str "Open")
  | 2 => some (str "EOL")
  | 3 => some (str "Short")
  | _ => none

/-- Modelled from the spec: `LogicalState` enum reverse mapping (enums.ts);
index 0 is fixed by the unit-test fixture and the README sample. -/
def logicalStateTable : Nat → Option Str
  | 0 => some (str "Normal")
  | 1 => some (str "Trouble")
  | 2 => some (str "Violated")
  | 3 => some (str "Bypassed")
  | _ => none

/-- Modelled from the spec: `ThermostatMode` enum reverse mapping (enums.ts);
the `2` entry is fixed by the unit-test fixture. -/
def thermostatModeTable : Str → Option Str :=
  mkTable [("0", "Off"), ("1", "Heat"), ("2", "Cool"), ("3", "Auto"),
           ("4", "Emergency Heat")]

/-- Modelled from the spec: `TextDescriptionType` enum reverse mapping
(enums.ts); the `1` entry is fixed by the unit-test fixture. -/
def textDescriptionTypeTable : Option Int → Option Str
  | some 0 => some (str "Zone")
  | some 1 => some (str "Area")
  | some 2 => some (str "User")
  | some 3 => some (str "Keypad")
  | some 5 => some (str "Task")
  | _ => none

/-! ## Decoders (src/lib/messages.ts, the per-type subclasses)

Each `for` loop that pushes one entry per iteration is translated through
`pushLoop`, which appends the loop-body value for `z, z+1, ...` over `fuel`
iterations, mirroring the source push order. -/

/-- Accumulating translation of the source `for`-loops: starting at counter
`z`, run `fuel` iterations, each appending `f` of the counter. -/
def pushLoop (f : Nat → α) : Nat → Nat → List α → List α
  | _, 0, acc => acc
  | z, fuel + 1, acc => pushLoop f (z + 1) fuel (acc ++ [f z])

/-- `AreaReport` model (src/lib/models.ts). -/
structure AreaReport where
  id : Nat
  armStatus : Option Str
  armUpState : Option Str
  alarmState : Option Str
deriving DecidableEq, Repr

/-- One-character slice `i` of the 8-character region `[lo, lo+8)` of the
body, as produced by `substring(lo, lo+8).split('')[i]` (an out-of-range
index yields `undefined`, modelled as `none`). -/
def sliceChar (region : Str) (i : Nat) : Option Str :=
  (region.get? i).map (fun c => [c])

/-- `ArmingStatusReport` (AS) decoder, src/lib/messages.ts lines 117-136. -/
def armingStatusReport (body : Str) : List AreaReport :=
  let armStatuses := jsSubstring body 0 8
  let armUpStates := jsSubstring body 8 16
  let alarmStates := jsSubstring body 16 24
  pushLoop (fun i =>
    { id := i + 1
      armStatus := (sliceChar armStatuses i).bind armStatus
      armUpState := (sliceChar armUpStates i).bind armUpState
      alarmState := (sliceChar alarmStates i).bind alarmState }) 0 8 []

/-- `EntryExitTime` (EE) fields, src/lib/messages.ts lines 145-161. -/
structure EntryExitFields where
  areaId : Option Int
  timerType : Option Str
  timer1 : Option Int
  timer2 : Option Int
  armedState : Option Str
deriving DecidableEq, Repr

/-- `EntryExitTime` (EE) decoder. -/
def entryExitTime (body : Str) : EntryExitFields :=
  { areaId := jsToNumber (jsSubstring body 0 1)
    timerType := timerTypeTable (jsSubstring body 1 2)
    timer1 := jsToNumber (jsSubstring body 2 5)
    timer2 := jsToNumber (jsSubstring body 5 8)
    armedState := armStatus (jsSubstring body 8 9) }

/-- `KeypadAreasReport` (KA) fields, src/lib/messages.ts lines 170-202.
`areas` collects distinct assigned areas; a `NaN` parse (`none`) is never
found by `indexOf` in JavaScript, so it is appended unconditionally. -/
structure KeypadAreasFields where
  areas : List (Option Int)
  keypadAreaAssignment : List (Nat × Option Int)
deriving DecidableEq, Repr

/-- One iteration of the KA loop (body of the `for` over keypad indices). -/
def keypadAreasStep (body : Str) (i : Nat) (st : KeypadAreasFields) :
    KeypadAreasFields :=
  let area := jsParseInt10 (jsSubstring body i (i + 1))
  if area = some 0 then st
  else
    { areas :=
        match area with
        | none => st.areas ++ [none]
        | some v =>
            if st.areas.contains (some v) then st.areas
            else st.areas ++ [some v]
      keypadAreaAssignment := st.keypadAreaAssignment ++ [(i + 1, area)] }

/-- `KeypadAreasReport` (KA) decoder: fold the loop body over `i = 0..15`. -/
def keypadAreasReport (body : Str) : KeypadAreasFields :=
  (List.range 16).foldl (fun st i => keypadAreasStep body i st)
    { areas := [], keypadAreaAssignment := [] }

/-- `KeypadKeyChangeUpdate` (KC) fields, src/lib/messages.ts lines 211-247. -/
structure KeypadKeyFields where
  keypadId : Option Int
  key : Option Str
  F1 : Option Str
  F2 : Option Str
  F3 : Option Str
  F4 : Option Str
  F5 : Option Str
  F6 : Option Str
  bypassCodeRequired : Bool
deriving DecidableEq, Repr

/-- `KeypadKeyChangeUpdate` (KC) decoder. -/
def keypadKeyChangeUpdate (body : Str) : KeypadKeyFields :=
  { keypadId := jsToNumber (jsSubstring body 0 2)
    key := keyTable (jsSubstring body 2 4)
    F1 := illuminationTable (jsSubstring body 4 5)
    F2 := illuminationTable (jsSubstring body 5 6)
    F3 := illuminationTable (jsSubstring body 6 7)
    F4 := illuminationTable (jsSubstring body 7 8)
    F5 := illuminationTable (jsSubstring body 8 9)
    F6 := illuminationTable (jsSubstring body 9 10)
    bypassCodeRequired := jsToNumber (jsSubstring body 10 11) == some 1 }

/-- `LogDataUpdate.getEventType`, src/lib/messages.ts lines 288-300.  The
argument is the numeric event code (`none` when the field was `NaN`; a `NaN`
compares false in every range check and renders as the string `NaN` in the
table lookup).  Note the source builds the zone number of the 5xxx range and
the output number of the 7xxx range with `event - 4000`, and compares the
absolute code against the literal `1` for the sub-text. -/
def getEventType : Option Int → Option Str
  | none => eventTypeTable (str "NaN")
  | some event =>
      if 4001 ≤ event ∧ event ≤ 4208 then
        some (str "Zone " ++ intToDec (event - 4000) ++ str " Status: " ++
          (if event = 1 then str "violated" else str "normal"))
      else if 5001 ≤ event ∧ event ≤ 5208 then
        some (str "Zone " ++ intToDec (event - 4000) ++ str "  Bypassed: " ++
          (if event = 1 then str "bypassed" else str ""))
      else if 6001 ≤ event ∧ event ≤ 6208 then
        some (str "Alarm Memory: " ++
          (if event = 1 then str "alarm activated" else str ""))
      else if 7001 ≤ event ∧ event ≤ 7208 then
        some (str "Output " ++ intToDec (event - 4000) ++ str "  Status: " ++
          (if event = 1 then str "On" else str "Off"))
      else eventTypeTable (intToDec event)

/-- `LogDataUpdate` (LD) fields, src/lib/messages.ts lines 256-286. -/
structure LogDataFields where
  event : Option Str
  id : Option Int
  areaId : Option Int
  hour : Str
  minute : Str
  month : Option Str
  day : Option Int
  logIndex : Str
  dayOfWeek : Option Str
  year : Str
deriving DecidableEq, Repr

/-- `LogDataUpdate` (LD) decoder. -/
def logDataUpdate (body : Str) : LogDataFields :=
  { event := getEventType (jsToNumber (jsSubstring body 0 4))
    id := jsToNumber (jsSubstring body 4 7)
    areaId := jsToNumber (jsSubstring body 7 8)
    hour := jsSubstring body 8 10
    minute := jsSubstring body 10 12
    month := monthTable (jsToNumber (jsSubstring body 12 14))
    day := jsToNumber (jsSubstring body 14 16)
    logIndex := jsSubstring body 16 19
    dayOfWeek := weekDayTable (jsToNumber (jsSubstring body 19 20))
    year := jsSubstring body 20 22 }

/-- `OutputChangeUpdate` (CC) fields, src/lib/messages.ts lines 310-320. -/
structure OutputChangeFields where
  id : Option Int
  state : Str
deriving DecidableEq, Repr

/-- `OutputChangeUpdate` (CC) decoder. -/
def outputChangeUpdate (body : Str) : OutputChangeFields :=
  { id := jsToNumber (jsSubstring body 0 3)
    state := if jsSubstring body 3 4 == str "1" then str "On" else str "Off" }

/-- `OutputStatusReport` (CS) decoder, src/lib/messages.ts lines 329-345:
208 per-output states, index 0 holding output 1. -/
def outputStatusReport (body : Str) : List Str :=
  pushLoop (fun i =>
    if jsSubstring body i (i + 1) == str "0" then str "Off" else str "On")
    0 208 []

/-- `TemperatureReply` (LW) fields, src/lib/messages.ts lines 354-379. -/
structure TempFields where
  keypads : List (Option Int)
  zones : List (Option Int)
deriving DecidableEq, Repr

/-- `TemperatureReply` (LW) decoder: the step-3 loop pushes 16 keypad temps
(offset `3k`, minus 40) then 16 zone temps (offset `48 + 3k`, minus 60); a
`NaN` field stays `NaN` after subtraction. -/
def temperatureReply (body : Str) : TempFields :=
  { keypads := pushLoop (fun k =>
      (jsToNumber (jsSubstring body (3 * k) (3 * k + 3))).map (· - 40))
      0 16 []
    zones := pushLoop (fun k =>
      (jsToNumber (jsSubstring body (48 + 3 * k) (48 + 3 * k + 3))).map
        (· - 60)) 0 16 [] }

/-- `ThermostatReply` (TR) fields, src/lib/messages.ts lines 388-412. -/
structure ThermostatFields where
  id : Str
  mode : Option Str
  hold : Bool
  fan : Str
  temperature : Option Int
  heatSetPoint : Option Int
  coolSetPoint : Option Int
  humidity : Str
deriving DecidableEq, Repr

/-- `ThermostatReply` (TR) decoder.  The id comparison is against the
one-character string `"0"` exactly as in the source (line 402); the hold flag
is the JavaScript negation of the 3:4 slice, true exactly when the slice is
empty. -/
def thermostatReply (body : Str) : ThermostatFields :=
  let thermNo := jsSubstring body 0 2
  { id := if thermNo == str "0" then str "Invalid"
          else numToDec (jsParseInt10 thermNo)
    mode := thermostatModeTable (jsSubstring body 2 3)
    hold := jsSubstring body 3 4 == []
    fan := if jsSubstring body 4 5 == str "0" then str "Auto" else str "On"
    temperature := jsToNumber (jsSubstring body 5 7)
    heatSetPoint := jsParseFloatInt (jsSubstring body 7 9)
    coolSetPoint := jsParseFloatInt (jsSubstring body 9 11)
    humidity := if jsSubstring body 11 12 == str "0" then str "No Data"
                else jsSubstring body 11 12 }

/-- `TextStringDescriptionReport` (SD) fields, src/lib/messages.ts lines
421-433. -/
structure TextDescriptionFields where
  descriptionType : Option Str
  id : Option Int
  description : Str
deriving DecidableEq, Repr

/-- `TextStringDescriptionReport` (SD) decoder; the description text is the
body from offset 5 to `length - 2`, trimmed. -/
def textStringDescriptionReport (body : Str) : TextDescriptionFields :=
  { descriptionType :=
      textDescriptionTypeTable (jsParseInt10 (jsSubstring body 0 2))
    id := jsParseInt10 (jsSubstring body 2 5)
    description := jsTrim (jsSubstring body 5 ((body.length : Int) - 2)) }

/-- `TaskChangeUpdate` (TC) fields, src/lib/messages.ts lines 442-450. -/
structure TaskChangeFields where
  taskNumber : Option Int
deriving DecidableEq, Repr

/-- `TaskChangeUpdate` (TC) decoder. -/
def taskChangeUpdate (body : Str) : TaskChangeFields :=
  { taskNumber := jsToNumber (jsSubstring body 0 3) }

/-- `ZoneBypass` (ZB) fields, src/lib/messages.ts lines 459-469. -/
structure ZoneBypassFields where
  id : Option Int
  bypassed : Bool
deriving DecidableEq, Repr

/-- `ZoneBypass` (ZB) decoder. -/
def zoneBypass (body : Str) : ZoneBypassFields :=
  { id := jsToNumber (jsSubstring body 0 3)
    bypassed := jsSubstring body 3 4 == str "1" }

/-- `ZoneDefinition` entry (src/lib/models.ts). -/
structure ZoneDefinitionEntry where
  id : Nat
  definition : Option Str
deriving DecidableEq, Repr

/-- `ZoneDefinitionReport` (ZD) decoder, src/lib/messages.ts lines 478-492:
the loop runs `i = 0..207`, entry id `i + 1`, definition from the character at
offset `i`. -/
def zoneDefinitionReport (body : Str) : List ZoneDefinitionEntry :=
  pushLoop (fun i =>
    { id := i + 1
      definition := zoneDefinition (jsSubstring body i (i + 1)) }) 0 208 []

/-- `ZoneVoltageReport` (ZV) fields, src/lib/messages.ts lines 501-511.  The
source divides by 10 producing a float; the undivided numerator is kept. -/
structure ZoneVoltageFields where
  id : Option Int
  voltageTimesTen : Option Int
deriving DecidableEq, Repr

/-- `ZoneVoltageReport` (ZV) decoder. -/
def zoneVoltageReport (body : Str) : ZoneVoltageFields :=
  { id := jsToNumber (jsSubstring body 0 3)
    voltageTimesTen := jsToNumber (jsSubstring body 3 6) }

/-- `ZoneChangeUpdate` (ZC) fields, src/lib/messages.ts lines 520-534. -/
structure ZoneChangeFields where
  id : Option Int
  physicalStatus : Option Str
  logicalState : Option Str
deriving DecidableEq, Repr

/-- Bit-split of the one-character status nibble used by ZC and ZS: parse as
one hex digit (`NaN` is carried to bitwise operators as 0 by `ToInt32`),
physical status from the low two bits, logical state from the high bits. -/
def zoneStatusSplit (slice : Str) : Option Str × Option Str :=
  let status := toInt32 (jsParseHex slice)
  (physicalStatusTable (status &&& 0x03), logicalStateTable (status >>> 2))

/-- `ZoneChangeUpdate` (ZC) decoder. -/
def zoneChangeUpdate (body : Str) : ZoneChangeFields :=
  let split := zoneStatusSplit (jsSubstring body 3 4)
  { id := jsToNumber (jsSubstring body 0 3)
    physicalStatus := split.1
    logicalState := split.2 }

/-- `ZoneStatusReport` entry. -/
structure ZoneStatusEntry where
  id : Nat
  physicalStatus : Option Str
  logicalState : Option Str
deriving DecidableEq, Repr

/-- `ZoneStatusReport` (ZS) decoder, src/lib/messages.ts lines 542-558: the
loop runs `z = 1..208`, decoding the character at offset `z - 1`. -/
def zoneStatusReport (body : Str) : List ZoneStatusEntry :=
  pushLoop (fun z =>
    let split := zoneStatusSplit (jsSubstring body ((z : Int) - 1) (z : Int))
    { id := z, physicalStatus := split.1, logicalState := split.2 }) 1 208 []

/-- `ZonePartitionReport` entry. -/
structure ZonePartitionEntry where
  id : Nat
  partition : Option Int
deriving DecidableEq, Repr

/-- `ZonePartitionReport` (ZP) decoder, src/lib/messages.ts lines 567-581:
the loop runs `z = 1..208`, partition from the character at offset `z - 1`. -/
def zonePartitionReport (body : Str) : List ZonePartitionEntry :=
  pushLoop (fun z =>
    { id := z
      partition := jsToNumber (jsSubstring body ((z : Int) - 1) (z : Int)) })
    1 208 []

/-! ## Message registry dispatch (src/lib/factory.ts) -/

/-- Decoded message: the variant selected by the registry, holding the base
frame plus the type-specific fields. -/
inductive DecodedMessage where
  | generic (f : ElkFrame)
  | armingStatus (f : ElkFrame) (areas : List AreaReport)
  | entryExit (f : ElkFrame) (x : EntryExitFields)
  | keypadAreas (f : ElkFrame) (x : KeypadAreasFields)
  | keypadKey (f : ElkFrame) (x : KeypadKeyFields)
  | logData (f : ElkFrame) (x : LogDataFields)
  | outputChange (f : ElkFrame) (x : OutputChangeFields)
  | outputStatus (f : ElkFrame) (outputs : List Str)
  | temperature (f : ElkFrame) (x : TempFields)
  | thermostat (f : ElkFrame) (x : ThermostatFields)
  | textDescription (f : ElkFrame) (x : TextDescriptionFields)
  | taskChange (f : ElkFrame) (x : TaskChangeFields)
  | zoneBypass (f : ElkFrame) (x : ZoneBypassFields)
  | zoneDefinition (f : ElkFrame) (zones : List ZoneDefinitionEntry)
  | zoneVoltage (f : ElkFrame) (x : ZoneVoltageFields)
  | zoneChange (f : ElkFrame) (x : ZoneChangeFields)
  | zoneStatus (f : ElkFrame) (zones : List ZoneStatusEntry)
  | zonePartition (f : ElkFrame) (zones : List ZonePartitionEntry)
deriving DecidableEq, Repr

/-- Base frame of a decoded message. -/
def DecodedMessage.frame : DecodedMessage → ElkFrame
  | .generic f => f
  | .armingStatus f _ => f
  | .entryExit f _ => f
  | .keypadAreas f _ => f
  | .keypadKey f _ => f
  | .logData f _ => f
  | .outputChange f _ => f
  | .outputStatus f _ => f
  | .temperature f _ => f
  | .thermostat f _ => f
  | .textDescription f _ => f
  | .taskChange f _ => f
  | .zoneBypass f _ => f
  | .zoneDefinition f _ => f
  | .zoneVoltage f _ => f
  | .zoneChange f _ => f
  | .zoneStatus f _ => f
  | .zonePartition f _ => f

/-- Dispatch on the decoder class name the registry stores, mirroring
`messages[messageType]` in the factory (every registered name is a class
exported by src/lib/messages.ts; an unknown name falls back to the generic
base message exactly as the factory does). -/
def decodeByName (name : String) (f : ElkFrame) : DecodedMessage :=
  match name with
  | "ArmingStatusReport" => .armingStatus f (armingStatusReport f.body)
  | "EntryExitTime" => .entryExit f (entryExitTime f.body)
  | "KeypadAreasReport" => .keypadAreas f (keypadAreasReport f.body)
  | "KeypadKeyChangeUpdate" => .keypadKey f (keypadKeyChangeUpdate f.body)
  | "LogDataUpdate" => .logData f (logDataUpdate f.body)
  | "OutputChangeUpdate" => .outputChange f (outputChangeUpdate f.body)
  | "OutputStatusReport" => .outputStatus f (outputStatusReport f.body)
  | "TemperatureReply" => .temperature f (temperatureReply f.body)
  | "ThermostatReply" => .thermostat f (thermostatReply f.body)
  | "TextStringDescriptionReport" =>
      .textDescription f (textStringDescriptionReport f.body)
  | "TaskChangeUpdate" => .taskChange f (taskChangeUpdate f.body)
  | "ZoneBypass" => .zoneBypass f (zoneBypass f.body)
  | "ZoneDefinitionReport" => .zoneDefinition f (zoneDefinitionReport f.body)
  | "ZoneVoltageReport" => .zoneVoltage f (zoneVoltageReport f.body)
  | "ZoneChangeUpdate" => .zoneChange f (zoneChangeUpdate f.body)
  | "ZoneStatusReport" => .zoneStatus f (zoneStatusReport f.body)
  | "ZonePartitionReport" => .zonePartition f (zonePartitionReport f.body)
  | _ => .generic f

/-- `getElkMessage` factory (src/lib/factory.ts): look the type code at
offsets 2:4 up in the registry; a registered type selects its decoder, an
unregistered one yields the generic base message.  Either path first runs the
base-class response constructor, which is where decoding can fail. -/
def getElkMessage (response : Str) : Except DecodeError DecodedMessage :=
  match responseTypes (jsSubstring response 2 4) with
  | some name => (elkFromResponse response).map (decodeByName name)
  | none => (elkFromResponse response).map DecodedMessage.generic

/-! ## Dispatcher (src/index.ts, onDataReceived lines 93-129)

The post-authentication message path: the chunk is trimmed and split on
newlines, and the whole `forEach` over the resulting lines runs inside a
single `try` block.  Each line has its first carriage return removed and is
decoded; a successful decode emits to the wildcard channel and then to the
per-type channel.  An exception thrown by any decode propagates out of the
`forEach`, so the `catch` emits one error event and the remaining lines of
the chunk are never processed. -/

/-- Events emitted while processing one delivered chunk. -/
inductive EmitEvent where
  | star (m : DecodedMessage)
  | typed (code : Str) (m : DecodedMessage)
  | error (e : DecodeError)
deriving DecidableEq, Repr

/-- Events produced for one candidate line in isolation: wildcard first, then
the per-type channel; a failing line produces its error event. -/
def emitsOf (line : Str) : List EmitEvent :=
  match getElkMessage (removeFirst '\r' line) with
  | .ok m => [.star m, .typed m.frame.type m]
  | .error e => [.error e]

/-- The `forEach` over candidate lines under the chunk-level `try`: a decode
failure stops the iteration and surfaces as a single error event. -/
def processMessages : List Str → List EmitEvent
  | [] => []
  | line :: rest =>
      match getElkMessage (removeFirst '\r' line) with
      | .ok m => .star m :: .typed m.frame.type m :: processMessages rest
      | .error e => [.error e]

/-- `onDataReceived` message path for one delivered chunk. -/
def onDataReceived (data : Str) : List EmitEvent :=
  processMessages (jsSplit '\n' (jsTrim data))

/-! ## Correlation engine (src/index.ts, requestArmingStatus lines 234-250)

The request registers a one-shot listener for the response type, writes the
command, and arms a `setTimeout`.  The source contains no `clearTimeout` and
no listener removal: the timer callback always runs at `timeoutMs` and
rejects the promise, and the listener stays registered until a message of the
awaited type consumes it.  A promise settles at most once, so only the first
`resolve`/`reject` takes effect.  A run is modelled by the times at which
messages of the awaited type are dispatched; events strictly before
`timeoutMs` are delivered first, then the timer fires, then the remaining
deliveries. -/

/-- How the request promise settled. -/
inductive Settle where
  | resolvedAt (t : Nat)
  | rejectedAt (msg : Str) (t : Nat)
deriving DecidableEq, Repr

/-- State of one outstanding request. -/
structure ReqState where
  settled : Option Settle
  listener : Bool
  timerFired : Bool
deriving DecidableEq, Repr

/-- Rejection text of `requestArmingStatus`, naming the `as` command. -/
def asTimeoutMsg : Str :=
  str "Timout occured before Arming Status (as) was received."

/-- Delivery of a decoded message of the awaited type at time `t`: a
registered `once` listener fires (removing itself) and calls `resolve`, which
only settles a still-pending promise. -/
def deliver (s : ReqState) (t : Nat) : ReqState :=
  if s.listener then
    { s with listener := false
             settled := match s.settled with
                        | some x => some x
                        | none => some (.resolvedAt t) }
  else s

/-- The `setTimeout` callback at time `t`: `reject` settles a still-pending
promise; the listener is not removed. -/
def fireTimer (s : ReqState) (t : Nat) : ReqState :=
  { s with timerFired := true
           settled := match s.settled with
                      | some x => some x
                      | none => some (.rejectedAt asTimeoutMsg t) }

/-- Full run of one `requestArmingStatus` with matching messages dispatched at
the given times. -/
def runRequest (timeoutMs : Nat) (arrivals : List Nat) : ReqState :=
  let s0 : ReqState := { settled := none, listener := true, timerFired := false }
  let s1 := (arrivals.filter (fun t => t < timeoutMs)).foldl deliver s0
  let s2 := fireTimer s1 timeoutMs
  (arrivals.filter (fun t => ¬ t < timeoutMs)).foldl deliver s2

/-! ## Recursive description fetch (src/index.ts, lines 365-424)

`requestTextDescriptionAll` drives `getDescription` through a callback chain.
Each callback receives either a decoded SD report or an error object carrying
no id.  The loop continues exactly when `data.id > 0 && id < maxRange`, where
`id` is the id that was requested, not the returned one; on continuation the
report is appended and the next request uses the returned id plus one.  An
error rejects the promise (the subsequent `resolve` on the same promise is a
no-op).  The panel is modelled as the list of successive callback payloads;
running out of that list means the loop issued another request. -/

/-- Payload passed to the `getDescription` callback. -/
structure SDData where
  id : Option Int
  description : Str
deriving DecidableEq, Repr

/-- One callback payload: a decoded report or a timeout error object. -/
inductive SDResp where
  | ok (d : SDData)
  | err (msg : Str)
deriving DecidableEq, Repr

/-- Outcome of the recursive fetch: the promise settles, or the loop issued a
further request (recorded with the id it asked for) beyond the supplied
responses. -/
inductive FetchOutcome where
  | resolved (items : List SDData)
  | rejected (msg : Str)
  | awaiting (nextId : Int)
deriving DecidableEq, Repr

/-- The `recursiveCall` chain of `requestTextDescriptionAll`, parameterised by
`maxRange`, the `textDescriptionMaxRange` bound for the requested description
type (modelled from the spec: types.ts is not under src/; the bound is the
static maximum valid id for the type). -/
def fetchLoop (maxRange : Int) : List SDResp → Int → List SDData →
    FetchOutcome
  | [], id, _ => .awaiting id
  | .err m :: _, _, _ => .rejected m
  | .ok d :: rest, id, items =>
      match d.id with
      | some v =>
          if 0 < v ∧ id < maxRange then
            fetchLoop maxRange rest (v + 1) (items ++ [d])
          else .resolved items
      | none => .resolved items

/-- The fetch loop written from the words of the claim, for comparison with
the code-derived `fetchLoop`: continue exactly when the returned id is
positive and the RETURNED id is below the maximum range. -/
def fetchLoopSpec (maxRange : Int) : List SDResp → Int → List SDData →
    FetchOutcome
  | [], id, _ => .awaiting id
  | .err m :: _, _, _ => .rejected m
  | .ok d :: rest, _, items =>
      match d.id with
      | some v =>
          if 0 < v ∧ v < maxRange then
            fetchLoopSpec maxRange rest (v + 1) (items ++ [d])
          else .resolved items
      | none => .resolved items

/-- `requestTextDescriptionAll`: the chain starts at id 1 with an empty
accumulator. -/
def requestTextDescriptionAll (maxRange : Int) (responses : List SDResp) :
    FetchOutcome :=
  fetchLoop maxRange responses 1 []

/-! ## Helper lemmas -/

theorem hexCharVal_digitCharU {n : Nat} (h : n < 16) :
    hexCharVal (digitCharU n) = n := by
  interval_cases n <;> decide

theorem natToHexUpper_lt (n : Nat) (h : n < 16) :
    natToHexUpper n = [digitCharU n] := by
  unfold natToHexUpper natDigits
  simp [h]

theorem natToHexUpper_two (n : Nat) (h16 : 16 ≤ n) (h : n < 256) :
    natToHexUpper n = [digitCharU (n / 16), digitCharU (n % 16)] := by
  unfold natToHexUpper
  rw [natDigits]
  rw [if_neg (by omega)]
  obtain ⟨m, rfl⟩ : ∃ m, n = m + 16 := ⟨n - 16, by omega⟩
  rw [natDigits]
  rw [if_pos (by omega)]

theorem hex2_lt (n : Nat) (h : n < 16) : hex2 n = ['0', digitCharU n] := by
  unfold hex2
  rw [natToHexUpper_lt n h]
  rfl

theorem hex2_two (n : Nat) (h16 : 16 ≤ n) (h : n < 256) :
    hex2 n = [digitCharU (n / 16), digitCharU (n % 16)] := by
  unfold hex2
  rw [natToHexUpper_two n h16 h]
  rfl

theorem hex2_length (n : Nat) (h : n < 256) : (hex2 n).length = 2 := by
  rcases Nat.lt_or_ge n 16 with h16 | h16
  · rw [hex2_lt n h16]; rfl
  · rw [hex2_two n h16 h]; rfl

theorem hexToNat_hex2 (n : Nat) (h : n < 256) : hexToNat (hex2 n) = n := by
  rcases Nat.lt_or_ge n 16 with h16 | h16
  · rw [hex2_lt n h16]
    show (0 * 16 + hexCharVal '0') * 16 + hexCharVal (digitCharU n) = n
    rw [hexCharVal_digitCharU h16, show hexCharVal '0' = 0 from by decide]
    omega
  · rw [hex2_two n h16 h]
    show (0 * 16 + hexCharVal (digitCharU (n / 16))) * 16 +
        hexCharVal (digitCharU (n % 16)) = n
    rw [hexCharVal_digitCharU (by omega : n / 16 < 16),
        hexCharVal_digitCharU (Nat.mod_lt n (by omega))]
    omega

theorem calcChecksum_length (s : Str) : (calcChecksum s).length = 2 := by
  unfold calcChecksum
  exact hex2_length _ (Nat.lt_succ_of_le (Nat.and_le_right))

theorem pushLoop_eq (f : Nat → α) :
    ∀ (fuel z : Nat) (acc : List α),
      pushLoop f z fuel acc = acc ++ (List.range fuel).map (fun k => f (z + k))
  | 0, z, acc => by simp [pushLoop]
  | fuel + 1, z, acc => by
      rw [pushLoop, pushLoop_eq f fuel (z + 1) (acc ++ [f z])]
      rw [List.range_succ_eq_map]
      simp [List.map_map, Function.comp, Nat.add_assoc, Nat.add_comm 1]

theorem foldl_deliver_settled {x : Settle} :
    ∀ (l : List Nat) (s : ReqState), s.settled = some x →
      (l.foldl deliver s).settled = some x
  | [], _, h => h
  | t :: ts, s, h => by
      have hd : (deliver s t).settled = some x := by
        unfold deliver
        split
        · simp [h]
        · exact h
      exact foldl_deliver_settled ts (deliver s t) hd

theorem foldl_deliver_timerFired :
    ∀ (l : List Nat) (s : ReqState),
      (l.foldl deliver s).timerFired = s.timerFired
  | [], _ => rfl
  | t :: ts, s => by
      have hd : (deliver s t).timerFired = s.timerFired := by
        unfold deliver
        split <;> rfl
      rw [List.foldl_cons, foldl_deliver_timerFired ts (deliver s t), hd]

theorem fireTimer_settled_some {s : ReqState} {x : Settle} {t : Nat}
    (h : s.settled = some x) : (fireTimer s t).settled = some x := by
  unfold fireTimer
  simp [h]

theorem fetchLoop_resolved_extends (maxRange : Int) :
    ∀ (resp : List SDResp) (id : Int) (items its : List SDData),
      fetchLoop maxRange resp id items = .resolved its →
      ∃ extra, its = items ++ extra
  | [], _, items, its, h => by
      simp [fetchLoop] at h
  | .err m :: rest, _, items, its, h => by
      simp [fetchLoop] at h
  | .ok d :: rest, id, items, its, h => by
      rw [fetchLoop] at h
      match hd : d.id with
      | some v =>
          rw [hd] at h
          change (if 0 < v ∧ id < maxRange then
              fetchLoop maxRange rest (v + 1) (items ++ [d])
            else FetchOutcome.resolved items) = FetchOutcome.resolved its at h
          by_cases hc : 0 < v ∧ id < maxRange
          · rw [if_pos hc] at h
            obtain ⟨extra, hx⟩ :=
              fetchLoop_resolved_extends maxRange rest (v + 1)
                (items ++ [d]) its h
            exact ⟨[d] ++ extra, by simp [hx]⟩
          · rw [if_neg hc] at h
            exact ⟨[], by simpa using h.symm⟩
      | none =>
          rw [hd] at h
          change FetchOutcome.resolved items = FetchOutcome.resolved its at h
          exact ⟨[], by simpa using h.symm⟩

theorem emitsOf_ok {line : Str} {m : DecodedMessage}
    (hm : getElkMessage (removeFirst '\r' line) = .ok m) :
    emitsOf line = [.star m, .typed m.frame.type m] := by
  rw [emitsOf, hm]

theorem processMessages_cons_ok {line : Str} {m : DecodedMessage}
    {rest : List Str} (hm : getElkMessage (removeFirst '\r' line) = .ok m) :
    processMessages (line :: rest) =
      .star m :: .typed m.frame.type m :: processMessages rest := by
  rw [processMessages, hm]

theorem processMessages_cons_err {line : Str} {e : DecodeError}
    {rest : List Str}
    (hm : getElkMessage (removeFirst '\r' line) = .error e) :
    processMessages (line :: rest) = [.error e] := by
  rw [processMessages, hm]

theorem processMessages_all_ok :
    ∀ lines : List Str,
      (∀ l ∈ lines, (getElkMessage (removeFirst '\r' l)).isOk = true) →
      processMessages lines = lines.flatMap emitsOf
  | [], _ => rfl
  | line :: rest, h => by
      have hl := h line (by simp)
      cases hm : getElkMessage (removeFirst '\r' line) with
      | ok m =>
          rw [processMessages_cons_ok hm, List.flatMap_cons, emitsOf_ok hm,
            processMessages_all_ok rest (fun l hmem => h l (by simp [hmem]))]
          rfl
      | error e =>
          rw [hm] at hl
          simp [Except.isOk, Except.toBool] at hl

theorem processMessages_stops :
    ∀ (pre : List Str) (bad : Str) (post : List Str) (e : DecodeError),
      (∀ l ∈ pre, (getElkMessage (removeFirst '\r' l)).isOk = true) →
      getElkMessage (removeFirst '\r' bad) = .error e →
      processMessages (pre ++ bad :: post) =
        pre.flatMap emitsOf ++ [EmitEvent.error e]
  | [], bad, post, e, _, hbad => by
      simp only [List.nil_append, List.flatMap_nil]
      rw [processMessages_cons_err hbad]
  | line :: pre, bad, post, e, h, hbad => by
      have hl := h line (by simp)
      cases hm : getElkMessage (removeFirst '\r' line) with
      | ok m =>
          rw [List.cons_append, processMessages_cons_ok hm,
            processMessages_stops pre bad post e
              (fun l hmem => h l (by simp [hmem])) hbad,
            List.flatMap_cons, emitsOf_ok hm]
          rfl
      | error e2 =>
          rw [hm] at hl
          simp [Except.isOk, Except.toBool] at hl

theorem parseFrame_type (r : Str) : (parseFrame r).type = jsSubstring r 2 4 :=
  rfl

theorem parseFrame_message (r : Str) : (parseFrame r).message = r := rfl

theorem elkFromResponse_registered {r : Str}
    (h : (responseTypes (parseFrame r).type).isSome = true) :
    elkFromResponse r = .ok (parseFrame r) := by
  unfold elkFromResponse
  rcases ho : responseTypes (parseFrame r).type with _ | name
  · rw [ho] at h
    simp at h
  · simp [ho]

theorem elkFromResponse_valid {r : Str}
    (hn : responseTypes (parseFrame r).type = none)
    (hv : validChecksum (parseFrame r) = true) :
    elkFromResponse r = .ok (parseFrame r) := by
  unfold elkFromResponse
  simp [hn, hv]

theorem elkFromResponse_invalid {r : Str}
    (hn : responseTypes (parseFrame r).type = none)
    (hv : validChecksum (parseFrame r) = false) :
    elkFromResponse r = .error (.checksumMismatch r) := by
  unfold elkFromResponse
  simp [hn, hv, parseFrame_message]

/-! ## Claim theorems -/

/-- Claim C1, corrected.  The encoder appends the "00" future-use suffix to
the body, slices the type code from the first two characters, renders the
length field as 2-digit zero-padded uppercase hex, and assembles the frame as
lengthField + typeCode + body + checksum.  However the encoded value is
`len(typeCode + suffixed-body) + 2`: the length field encodes the character
count of `typeCode + body + checksum`, EXCLUDING the two length characters
themselves (so it is the frame length minus 2, not the frame length, and not
`4 + len(typeCode + suffixed-body)` as the claim stated). -/
theorem C1_encode_length (command : Str) :
    (elkFromCommand command).body =
        jsSubstring command 2 (command.length : Int) ++ str "00"
    ∧ (elkFromCommand command).type = jsSubstring command 0 2
    ∧ (elkFromCommand command).hexLength =
        hex2 (((elkFromCommand command).type ++
          (elkFromCommand command).body).length + 2)
    ∧ (elkFromCommand command).message =
        (elkFromCommand command).hexLength ++ (elkFromCommand command).type ++
          (elkFromCommand command).body ++ (elkFromCommand command).checkSum
    ∧ (((elkFromCommand command).type ++
          (elkFromCommand command).body).length + 2 < 256 →
        hexToNat (elkFromCommand command).hexLength =
          ((elkFromCommand command).type ++ (elkFromCommand command).body ++
            (elkFromCommand command).checkSum).length) := by
  refine ⟨rfl, rfl, rfl, rfl, fun h => ?_⟩
  have hc : (elkFromCommand command).checkSum.length = 2 := calcChecksum_length _
  have hv : hexToNat (elkFromCommand command).hexLength =
      ((elkFromCommand command).type ++
        (elkFromCommand command).body).length + 2 :=
    hexToNat_hex2 _ h
  rw [hv]
  simp only [List.length_append, hc]

/-- Witness for C1_encode_length at the bare arming-status command `as`. -/
theorem C1_encode_length_witness :
    hexToNat (elkFromCommand (str "as")).hexLength =
      ((elkFromCommand (str "as")).type ++ (elkFromCommand (str "as")).body ++
        (elkFromCommand (str "as")).checkSum).length :=
  (C1_encode_length (str "as")).2.2.2.2 (by decide)

/-- Counterexample for claim C1 as stated: encoding the command `as` yields
the length field "06" while the claimed formula `4 + len(typeCode + body)`
would give hex 8, and the full frame "06as0066" has 8 characters, so the
length field does not encode the count including the two length characters. -/
theorem C1_counterexample_as :
    (elkFromCommand (str "as")).hexLength = str "06"
    ∧ (elkFromCommand (str "as")).message.length = 8
    ∧ ¬ (elkFromCommand (str "as")).hexLength =
        hex2 (4 + ((elkFromCommand (str "as")).type ++
          (elkFromCommand (str "as")).body).length)
    ∧ ¬ hexToNat (elkFromCommand (str "as")).hexLength =
        (elkFromCommand (str "as")).message.length := by
  decide

/-- Claim C2, confirmed.  The checksum of an ASCII string is the 2-digit
uppercase hex of the byte sum masked to 8 bits, XORed with 0xFF, incremented,
and masked to 8 bits; it is deterministic; the encoder stores exactly this
checksum of lengthField + typeCode + body, and decode acceptance depends only
on registry membership or this same recomputed checksum. -/
theorem C2_checksum_algorithm :
    (∀ s : Str, (∀ c ∈ s, c.toNat ≤ 127) →
        calcChecksum s = specChecksum s ∧ (calcChecksum s).length = 2)
    ∧ (∀ s : Str, calcChecksum s = calcChecksum s)
    ∧ (∀ cmd : Str, (elkFromCommand cmd).checkSum =
        calcChecksum ((elkFromCommand cmd).hexLength ++
          (elkFromCommand cmd).type ++ (elkFromCommand cmd).body))
    ∧ (∀ r : Str, (elkFromResponse r).isOk =
        ((responseTypes (parseFrame r).type).isSome ||
          validChecksum (parseFrame r))) := by
  refine ⟨fun s _ => ⟨rfl, calcChecksum_length s⟩, fun s => rfl,
    fun cmd => rfl, fun r => ?_⟩
  unfold elkFromResponse
  rcases ho : responseTypes (parseFrame r).type with _ | name
  · cases hv : validChecksum (parseFrame r) <;>
      simp [ho, hv, Except.isOk, Except.toBool]
  · simp [ho, Except.isOk, Except.toBool]

/-- Witness for C2_checksum_algorithm on the prefix of the ZC test fixture. -/
theorem C2_checksum_witness :
    calcChecksum (str "0AZC002200") = specChecksum (str "0AZC002200")
    ∧ (calcChecksum (str "0AZC002200")).length = 2 :=
  C2_checksum_algorithm.1 (str "0AZC002200") (by decide)

/-- Claim C3, confirmed.  A received frame whose type code is registered is
accepted with no checksum verification; when the type code is not registered
the frame is accepted exactly when the recomputed checksum matches, and a
mismatch fails with the checksum-mismatch error carrying the frame. -/
theorem C3_validation_policy (r : Str) :
    ((responseTypes (parseFrame r).type).isSome = true →
        elkFromResponse r = .ok (parseFrame r))
    ∧ (responseTypes (parseFrame r).type = none →
        (validChecksum (parseFrame r) = true →
            elkFromResponse r = .ok (parseFrame r))
        ∧ (validChecksum (parseFrame r) = false →
            elkFromResponse r = .error (.checksumMismatch r))) :=
  ⟨fun h => elkFromResponse_registered h,
   fun hn => ⟨fun hv => elkFromResponse_valid hn hv,
    fun hv => elkFromResponse_invalid hn hv⟩⟩

/-- Witness for C3_validation_policy: the registered frame "0AZC002200FF"
carries a wrong checksum yet is accepted without verification, and the
unregistered frame "0AXX002200FF" is rejected with a checksum mismatch. -/
theorem C3_validation_witness :
    elkFromResponse (str "0AZC002200FF") =
        .ok (parseFrame (str "0AZC002200FF"))
    ∧ validChecksum (parseFrame (str "0AZC002200FF")) = false
    ∧ elkFromResponse (str "0AXX002200FF") =
        .error (.checksumMismatch (str "0AXX002200FF")) :=
  ⟨(C3_validation_policy (str "0AZC002200FF")).1 (by decide),
   by decide,
   ((C3_validation_policy (str "0AXX002200FF")).2 (by decide)).2 (by decide)⟩

/-- Claim C10, confirmed.  Constructing the typed message for any response
whose type code at offsets 2:4 is registered always succeeds: the checksum
check is skipped for registered types and every field extractor is total. -/
theorem C10_registered_total (r : Str)
    (h : (responseTypes (jsSubstring r 2 4)).isSome = true) :
    (getElkMessage r).isOk = true := by
  have hresp : elkFromResponse r = .ok (parseFrame r) :=
    elkFromResponse_registered (by rw [parseFrame_type]; exact h)
  rcases ho : responseTypes (jsSubstring r 2 4) with _ | name
  · rw [ho] at h
    simp at h
  · unfold getElkMessage
    rw [ho, hresp]
    rfl

/-- Witness for C10_registered_total: a registered ZC frame with a corrupted
checksum and a short body still decodes successfully. -/
theorem C10_registered_witness :
    (getElkMessage (str "0AZC002200FF")).isOk = true
    ∧ (getElkMessage (str "06ZC00FF")).isOk = true :=
  ⟨C10_registered_total (str "0AZC002200FF") (by decide),
   C10_registered_total (str "06ZC00FF") (by decide)⟩

/-- Claim C4, corrected.  Whichever event is delivered first settles the
promise exactly once: a matching message arriving strictly before `timeoutMs`
resolves it with that message, and otherwise the timer rejection at
`timeoutMs` (at, hence at-or-after, the deadline, with the error text naming
the `as` command) stands and later arrivals never resolve it.  However the
source cancels nothing: the timer always fires even when a response won the
race (its rejection is a settle no-op), and the timeout path does not remove
the one-shot listener. -/
theorem C4_request_race (timeoutMs : Nat) (arrivals : List Nat) :
    (∀ t rest, arrivals.filter (fun u => u < timeoutMs) = t :: rest →
        (runRequest timeoutMs arrivals).settled = some (.resolvedAt t))
    ∧ (arrivals.filter (fun u => u < timeoutMs) = [] →
        (runRequest timeoutMs arrivals).settled =
          some (.rejectedAt asTimeoutMsg timeoutMs))
    ∧ (runRequest timeoutMs arrivals).timerFired = true := by
  refine ⟨fun t rest hf => ?_, fun hf => ?_, ?_⟩
  · simp only [runRequest]
    rw [hf]
    have h1 : ((t :: rest).foldl deliver
        { settled := none, listener := true, timerFired := false }).settled =
        some (.resolvedAt t) := by
      rw [List.foldl_cons]
      exact foldl_deliver_settled rest _ (by simp [deliver])
    exact foldl_deliver_settled _ _ (fireTimer_settled_some h1)
  · simp only [runRequest]
    rw [hf]
    simp only [List.foldl_nil]
    exact foldl_deliver_settled _ _ rfl
  · simp only [runRequest]
    rw [foldl_deliver_timerFired]
    rfl

/-- Witness for C4_request_race: with a 5000 ms timeout, a message at time 1
resolves the promise, and a message arriving only at 6000 leaves the timeout
rejection in place. -/
theorem C4_request_race_witness :
    (runRequest 5000 [1]).settled = some (.resolvedAt 1)
    ∧ (runRequest 5000 [6000]).settled =
        some (.rejectedAt asTimeoutMsg 5000) :=
  ⟨(C4_request_race 5000 [1]).1 1 [] (by decide),
   (C4_request_race 5000 [6000]).2.1 (by decide)⟩

/-- Counterexample for claim C4 as stated: when the response at time 1 wins
the race the timer is NOT cancelled (its callback still fires), and when the
timer wins the one-shot listener is NOT removed (it is still registered after
the rejection). -/
theorem C4_counterexample_no_cleanup :
    (runRequest 5000 [1]).settled = some (.resolvedAt 1)
    ∧ (runRequest 5000 [1]).timerFired = true
    ∧ (runRequest 5000 []).settled = some (.rejectedAt asTimeoutMsg 5000)
    ∧ (runRequest 5000 []).listener = true := by
  decide

/-- Claim C5, corrected.  The description-fetch chain starts at id 1; an
error response rejects the whole operation; a response whose returned id is
positive while the REQUESTED id is below the maximum range for the type is
appended to the ordered accumulator and the next request uses returned id
plus one; otherwise the chain resolves with the accumulated ordered list.
The continuation guard compares the requested id, not the returned id,
against the maximum range. -/
theorem C5_fetch_loop :
    (∀ (maxRange : Int) (rest : List SDResp) (id : Int)
        (items : List SDData) (m : Str),
        fetchLoop maxRange (.err m :: rest) id items = .rejected m)
    ∧ (∀ (maxRange : Int) (d : SDData) (rest : List SDResp) (id : Int)
        (items : List SDData) (v : Int), d.id = some v → 0 < v →
        id < maxRange →
        fetchLoop maxRange (.ok d :: rest) id items =
          fetchLoop maxRange rest (v + 1) (items ++ [d]))
    ∧ (∀ (maxRange : Int) (d : SDData) (rest : List SDResp) (id : Int)
        (items : List SDData) (v : Int), d.id = some v →
        (v ≤ 0 ∨ maxRange ≤ id) →
        fetchLoop maxRange (.ok d :: rest) id items = .resolved items)
    ∧ (∀ (maxRange : Int) (d : SDData) (rest : List SDResp) (id : Int)
        (items : List SDData), d.id = none →
        fetchLoop maxRange (.ok d :: rest) id items = .resolved items)
    ∧ (∀ (maxRange : Int) (resp : List SDResp) (id : Int)
        (items its : List SDData),
        fetchLoop maxRange resp id items = .resolved its →
        ∃ extra, its = items ++ extra) := by
  refine ⟨fun _ _ _ _ _ => rfl, ?_, ?_, ?_,
    fun mr resp id items its h =>
      fetchLoop_resolved_extends mr resp id items its h⟩
  · intro mr d rest id items v hd h0 hid
    rw [fetchLoop, hd]
    change (if 0 < v ∧ id < mr then fetchLoop mr rest (v + 1) (items ++ [d])
      else FetchOutcome.resolved items) = _
    rw [if_pos ⟨h0, hid⟩]
  · intro mr d rest id items v hd hstop
    rw [fetchLoop, hd]
    change (if 0 < v ∧ id < mr then fetchLoop mr rest (v + 1) (items ++ [d])
      else FetchOutcome.resolved items) = _
    rw [if_neg (by rintro ⟨hv, hi⟩; rcases hstop with h | h <;> omega)]
  · intro mr d rest id items hd
    rw [fetchLoop, hd]

/-- Witness for C5_fetch_loop: an error rejects; a returned id of 2 under a
maximum range of 5 is appended and the chain then stops on a returned 0,
resolving with the single accumulated report. -/
theorem C5_fetch_loop_witness :
    fetchLoop 5 [SDResp.err (str "Timout")] 1 [] = .rejected (str "Timout")
    ∧ fetchLoop 5 [SDResp.ok ⟨some 2, str "A"⟩, SDResp.ok ⟨some 0, str "B"⟩]
        1 [] = .resolved [⟨some 2, str "A"⟩] :=
  ⟨C5_fetch_loop.1 5 [] 1 [] (str "Timout"),
   (C5_fetch_loop.2.1 5 ⟨some 2, str "A"⟩ [SDResp.ok ⟨some 0, str "B"⟩] 1 []
      2 rfl (by decide) (by decide)).trans
    (C5_fetch_loop.2.2.1 5 ⟨some 0, str "B"⟩ [] 3 [⟨some 2, str "A"⟩] 0 rfl
      (Or.inl (by decide)))⟩

/-- Counterexample for claim C5 as stated: with maximum range 5, a response
returning id 7 (greater than the range) should stop the chain per the claim,
but the code appends it and issues a further request for id 8, because the
guard compares the REQUESTED id 1 against the range. -/
theorem C5_counterexample_range_check :
    fetchLoop 5 [SDResp.ok ⟨some 7, str "X"⟩] 1 [] = .awaiting 8
    ∧ fetchLoopSpec 5 [SDResp.ok ⟨some 7, str "X"⟩] 1 [] = .resolved []
    ∧ fetchLoop 5 [SDResp.ok ⟨some 7, str "X"⟩] 1 [] ≠
        fetchLoopSpec 5 [SDResp.ok ⟨some 7, str "X"⟩] 1 [] := by
  decide

/-- Claim C6, corrected.  Each successfully decoded line is emitted to the
wildcard channel first and then to its specific type-code channel, and when
every line of a chunk decodes this happens for all lines in order.  A decode
failure is caught at the chunk level and reported as a single error event
without closing the connection, but it ABORTS the processing and emission of
the remaining sibling lines of the same chunk: the lines before the failure
have been emitted, the lines after it are dropped. -/
theorem C6_dispatch :
    (∀ (line : Str) (m : DecodedMessage),
        getElkMessage (removeFirst '\r' line) = .ok m →
        emitsOf line = [.star m, .typed m.frame.type m])
    ∧ (∀ lines : List Str,
        (∀ l ∈ lines, (getElkMessage (removeFirst '\r' l)).isOk = true) →
        processMessages lines = lines.flatMap emitsOf)
    ∧ (∀ (pre : List Str) (bad : Str) (post : List Str) (e : DecodeError),
        (∀ l ∈ pre, (getElkMessage (removeFirst '\r' l)).isOk = true) →
        getElkMessage (removeFirst '\r' bad) = .error e →
        processMessages (pre ++ bad :: post) =
          pre.flatMap emitsOf ++ [EmitEvent.error e])
    ∧ (∀ data : Str, onDataReceived data =
        processMessages (jsSplit '\n' (jsTrim data))) :=
  ⟨fun _ _ hm => emitsOf_ok hm, processMessages_all_ok,
   processMessages_stops, fun _ => rfl⟩

/-- Witness for C6_dispatch: a fully well-formed chunk emits per line, and a
chunk whose first line fails emits exactly the single error event. -/
theorem C6_dispatch_witness :
    processMessages [str "0AZC002200CE"] = [str "0AZC002200CE"].flatMap emitsOf
    ∧ processMessages [str "0AXX002200FF", str "0AZC002200CE"] =
        ([] : List Str).flatMap emitsOf ++
          [EmitEvent.error (.checksumMismatch (str "0AXX002200FF"))] :=
  ⟨C6_dispatch.2.1 [str "0AZC002200CE"] (by decide),
   C6_dispatch.2.2.1 [] (str "0AXX002200FF") [str "0AZC002200CE"]
     (.checksumMismatch (str "0AXX002200FF")) (by simp) rfl⟩

/-- Counterexample for claim C6 as stated: the chunk holds a failing line
followed by a perfectly valid ZC line; the valid sibling would decode on its
own, yet the emitted events are only the single error event, so processing of
the remaining sibling lines was aborted. -/
theorem C6_counterexample_abort_siblings :
    onDataReceived (str "0AXX002200FF\n0AZC002200CE") =
      [EmitEvent.error (.checksumMismatch (str "0AXX002200FF"))]
    ∧ (getElkMessage (str "0AZC002200CE")).isOk = true :=
  ⟨rfl, rfl⟩

theorem zoneStatusReport_eq (body : Str) :
    zoneStatusReport body = (List.range 208).map (fun k =>
      ({ id := k + 1
         physicalStatus := (zoneStatusSplit (jsSubstring body
           (((k + 1 : Nat) : Int) - 1) ((k + 1 : Nat) : Int))).1
         logicalState := (zoneStatusSplit (jsSubstring body
           (((k + 1 : Nat) : Int) - 1) ((k + 1 : Nat) : Int))).2 } :
        ZoneStatusEntry)) := by
  unfold zoneStatusReport
  rw [pushLoop_eq, List.nil_append]
  refine List.map_congr_left (fun k _ => ?_)
  simp only [Nat.add_comm 1 k]

theorem zoneDefinitionReport_eq (body : Str) :
    zoneDefinitionReport body = (List.range 208).map (fun k =>
      ({ id := k + 1
         definition := zoneDefinition (jsSubstring body (k : Int)
           ((k : Int) + 1)) } : ZoneDefinitionEntry)) := by
  unfold zoneDefinitionReport
  rw [pushLoop_eq, List.nil_append]
  refine List.map_congr_left (fun k _ => ?_)
  simp only [Nat.zero_add]

theorem zonePartitionReport_eq (body : Str) :
    zonePartitionReport body = (List.range 208).map (fun k =>
      ({ id := k + 1
         partition := jsToNumber (jsSubstring body
           (((k + 1 : Nat) : Int) - 1) ((k + 1 : Nat) : Int)) } :
        ZonePartitionEntry)) := by
  unfold zonePartitionReport
  rw [pushLoop_eq, List.nil_append]
  refine List.map_congr_left (fun k _ => ?_)
  simp only [Nat.add_comm 1 k]

theorem outputStatusReport_eq (body : Str) :
    outputStatusReport body = (List.range 208).map (fun (k : Nat) =>
      if jsSubstring body (k : Int) ((k : Int) + 1) == str "0" then str "Off"
      else str "On") := by
  unfold outputStatusReport
  rw [pushLoop_eq, List.nil_append]
  refine List.map_congr_left (fun k _ => ?_)
  simp only [Nat.zero_add]

/-- Claim C7, confirmed.  Each of the four zone/output-indexed report
decoders (ZS, ZD, ZP, CS) yields exactly 208 entries; the ZS, ZD and ZP
entries carry ids 1..208 in ascending order, and every entry for id `i` is
decoded from the single character of the body at offset `i - 1` (the CS
outputs array is positional: index `i - 1` holds the state of output `i`,
decoded from the character at offset `i - 1`). -/
theorem C7_zone_reports (body : Str) :
    ((zoneStatusReport body).length = 208
      ∧ (zoneStatusReport body).map ZoneStatusEntry.id =
          (List.range 208).map (fun k => k + 1)
      ∧ zoneStatusReport body = (List.range 208).map (fun k =>
          ({ id := k + 1
             physicalStatus := (zoneStatusSplit (jsSubstring body
               (((k + 1 : Nat) : Int) - 1) ((k + 1 : Nat) : Int))).1
             logicalState := (zoneStatusSplit (jsSubstring body
               (((k + 1 : Nat) : Int) - 1) ((k + 1 : Nat) : Int))).2 } :
            ZoneStatusEntry)))
    ∧ ((zoneDefinitionReport body).length = 208
      ∧ (zoneDefinitionReport body).map ZoneDefinitionEntry.id =
          (List.range 208).map (fun k => k + 1)
      ∧ zoneDefinitionReport body = (List.range 208).map (fun k =>
          ({ id := k + 1
             definition := zoneDefinition (jsSubstring body (k : Int)
               ((k : Int) + 1)) } : ZoneDefinitionEntry)))
    ∧ ((zonePartitionReport body).length = 208
      ∧ (zonePartitionReport body).map ZonePartitionEntry.id =
          (List.range 208).map (fun k => k + 1)
      ∧ zonePartitionReport body = (List.range 208).map (fun k =>
          ({ id := k + 1
             partition := jsToNumber (jsSubstring body
               (((k + 1 : Nat) : Int) - 1) ((k + 1 : Nat) : Int)) } :
            ZonePartitionEntry)))
    ∧ ((outputStatusReport body).length = 208
      ∧ outputStatusReport body = (List.range 208).map (fun (k : Nat) =>
          if jsSubstring body (k : Int) ((k : Int) + 1) == str "0" then
            str "Off"
          else str "On")) := by
  refine ⟨⟨?_, ?_, zoneStatusReport_eq body⟩,
    ⟨?_, ?_, zoneDefinitionReport_eq body⟩,
    ⟨?_, ?_, zonePartitionReport_eq body⟩,
    ⟨?_, outputStatusReport_eq body⟩⟩
  · rw [zoneStatusReport_eq body]
    simp
  · rw [zoneStatusReport_eq body, List.map_map]
    exact List.map_congr_left (fun k _ => rfl)
  · rw [zoneDefinitionReport_eq body]
    simp
  · rw [zoneDefinitionReport_eq body, List.map_map]
    exact List.map_congr_left (fun k _ => rfl)
  · rw [zonePartitionReport_eq body]
    simp
  · rw [zonePartitionReport_eq body, List.map_map]
    exact List.map_congr_left (fun k _ => rfl)
  · rw [outputStatusReport_eq body]
    simp

/-- Claim C8, confirmed.  Log event codes 4001-4208 classify as a zone-status
event for zone `code - 4000`, whose violated/normal sub-text compares the
absolute code against the literal 1 and therefore always reads "normal" in
the range; 5001-5208 classify as a zone-bypass event, 6001-6208 as an
alarm-memory event, 7001-7208 as an output-status event; any other code is
looked up in the static event-description table. -/
theorem C8_event_classification (code : Int) :
    (4001 ≤ code → code ≤ 4208 →
        getEventType (some code) = some (str "Zone " ++ intToDec (code - 4000)
          ++ str " Status: " ++ str "normal"))
    ∧ (5001 ≤ code → code ≤ 5208 →
        getEventType (some code) = some (str "Zone " ++ intToDec (code - 4000)
          ++ str "  Bypassed: " ++ str ""))
    ∧ (6001 ≤ code → code ≤ 6208 →
        getEventType (some code) = some (str "Alarm Memory: " ++ str ""))
    ∧ (7001 ≤ code → code ≤ 7208 →
        getEventType (some code) = some (str "Output " ++ intToDec (code - 4000)
          ++ str "  Status: " ++ str "Off"))
    ∧ (¬ (4001 ≤ code ∧ code ≤ 4208) → ¬ (5001 ≤ code ∧ code ≤ 5208) →
        ¬ (6001 ≤ code ∧ code ≤ 6208) → ¬ (7001 ≤ code ∧ code ≤ 7208) →
        getEventType (some code) = eventTypeTable (intToDec code)) := by
  refine ⟨fun h1 h2 => ?_, fun h1 h2 => ?_, fun h1 h2 => ?_, fun h1 h2 => ?_,
    fun n1 n2 n3 n4 => ?_⟩
  · simp only [getEventType]
    rw [if_pos ⟨h1, h2⟩, if_neg (by omega)]
  · simp only [getEventType]
    rw [if_neg (by omega), if_pos ⟨h1, h2⟩, if_neg (by omega)]
  · simp only [getEventType]
    rw [if_neg (by omega), if_neg (by omega), if_pos ⟨h1, h2⟩,
      if_neg (by omega)]
  · simp only [getEventType]
    rw [if_neg (by omega), if_neg (by omega), if_neg (by omega),
      if_pos ⟨h1, h2⟩, if_neg (by omega)]
  · simp only [getEventType]
    rw [if_neg n1, if_neg n2, if_neg n3, if_neg n4]

/-- Witness for C8_event_classification at one code in each range and one
code outside every range. -/
theorem C8_event_classification_witness :
    getEventType (some 4100) = some (str "Zone " ++
        intToDec ((4100 : Int) - 4000) ++ str " Status: " ++ str "normal")
    ∧ getEventType (some 5100) = some (str "Zone " ++
        intToDec ((5100 : Int) - 4000) ++ str "  Bypassed: " ++ str "")
    ∧ getEventType (some 6100) = some (str "Alarm Memory: " ++ str "")
    ∧ getEventType (some 7100) = some (str "Output " ++
        intToDec ((7100 : Int) - 4000) ++ str "  Status: " ++ str "Off")
    ∧ getEventType (some 1193) = eventTypeTable (intToDec 1193) :=
  ⟨(C8_event_classification 4100).1 (by decide) (by decide),
   (C8_event_classification 5100).2.1 (by decide) (by decide),
   (C8_event_classification 6100).2.2.1 (by decide) (by decide),
   (C8_event_classification 7100).2.2.2.1 (by decide) (by decide),
   (C8_event_classification 1193).2.2.2.2 (by decide) (by decide) (by decide)
     (by decide)⟩

/-- Claim C9, corrected.  The decoded thermostat id is "Invalid" only when
the extracted field equals the one-character string "0" (possible only for a
body shorter than two characters); a 2-character field that is numerically
zero, such as "00", decodes to the string "0", and any other value decodes to
its numeric rendering without leading zeros (the fixture field "01" decodes
to "1"). -/
theorem C9_thermostat_id (body : Str) :
    (jsSubstring body 0 2 = str "0" →
        (thermostatReply body).id = str "Invalid")
    ∧ (jsSubstring body 0 2 ≠ str "0" →
        (thermostatReply body).id =
          numToDec (jsParseInt10 (jsSubstring body 0 2)))
    ∧ (jsSubstring body 0 2 = str "00" → (thermostatReply body).id = str "0")
    ∧ (jsSubstring body 0 2 = str "01" →
        (thermostatReply body).id = str "1") := by
  have hid : (thermostatReply body).id =
      (if jsSubstring body 0 2 == str "0" then str "Invalid"
       else numToDec (jsParseInt10 (jsSubstring body 0 2))) := rfl
  refine ⟨fun h => ?_, fun h => ?_, fun h => ?_, fun h => ?_⟩
  · rw [hid, h]
    decide
  · rw [hid]
    simp [h]
  · rw [hid, h]
    decide
  · rw [hid, h]
    decide

/-- Witness for C9_thermostat_id at a one-character body, at the body of the
TR fixture with a zeroed id field, and at the body of the TR test fixture. -/
theorem C9_thermostat_witness :
    (thermostatReply (str "0")).id = str "Invalid"
    ∧ (thermostatReply (str "002007268750000")).id = str "0"
    ∧ (thermostatReply (str "012007268750000")).id = str "1" :=
  ⟨(C9_thermostat_id (str "0")).1 (by decide),
   (C9_thermostat_id (str "002007268750000")).2.2.1 (by decide),
   (C9_thermostat_id (str "012007268750000")).2.2.2 (by decide)⟩

/-- Counterexample for claim C9 as stated: the full TR response whose
thermostat-id field is "00" (numerically zero) decodes through the registry
to the id "0", not to "Invalid". -/
theorem C9_counterexample_id_00 :
    (elkFromResponse (str "13TR00200726875000000")).map
        (fun f => (thermostatReply f.body).id) = .ok (str "0")
    ∧ str "0" ≠ str "Invalid" :=
  ⟨rfl, by decide⟩

end Elkmon
